import Mathlib

/-!
Verification of the alsamixer-web state-synchronization engine.

Shallow embedding of the Go server (snapshot model, delta computation,
poll tick, SSE hub/client, wire event serialization, HTTP control
handlers) and of the browser-side reconciler (mixer-sync.js), together
with theorems settling the spec claims about them.

Go maps are modelled as association lists (unique keys in the running
program; theorems that need key uniqueness take it as a hypothesis).
Go `error` results are modelled as `Except Unit`.  Go / JS strings are
modelled as `String` (or `List Char` where character-level splitting
matters).
-/

namespace AlsaWeb

/-- Association-list lookup with the first-match semantics of a Go map
read (`v, ok := m[k]`); keys are unique in the running program. -/
def lookupKey {α β : Type} [BEq α] (k : α) : List (α × β) → Option β
  | [] => none
  | p :: ps => if p.1 == k then some p.2 else lookupKey k ps

/-- `beginsWith s pat` : does `s` start with `pat`?  (Used to model
`strings.Replace` / JS `String.replace` pattern search.) -/
def beginsWith : List Char → List Char → Bool
  | _, [] => true
  | [], _ :: _ => false
  | c :: cs, p :: ps => c == p && beginsWith cs ps

/-- First-occurrence replacement: models Go `strings.Replace(s, pat, rep, 1)`
and JS `s.replace(pat, rep)` for a non-empty literal pattern. -/
def replaceFirst (pat rep : List Char) : List Char → List Char
  | [] => []
  | c :: cs =>
    if beginsWith (c :: cs) pat then rep ++ List.drop pat.length (c :: cs)
    else c :: replaceFirst pat rep cs

/-- `strings.Replace(name, " Volume", " Switch", 1)`: derives the paired
switch control name from a volume control name. -/
def switchNameOf (name : String) : String :=
  String.mk (replaceFirst " Volume".data " Switch".data name.data)

/-- Models Go `strings.ReplaceAll(s, "\r\n", "\n")` (left-to-right,
non-overlapping). -/
def replaceCrLf : List Char → List Char
  | [] => []
  | [c] => [c]
  | c :: d :: cs =>
    if c = '\r' ∧ d = '\n' then '\n' :: replaceCrLf cs
    else c :: replaceCrLf (d :: cs)

/-- Splits a character list on a separator character; models Go
`strings.Split(s, sep)` and JS `s.split(sep)` for one-character
separators.  Never returns the empty list. -/
def splitOnCh (sep : Char) : List Char → List (List Char)
  | [] => [[]]
  | c :: cs =>
    if c = sep then [] :: splitOnCh sep cs
    else
      match splitOnCh sep cs with
      | [] => [[c]]
      | l :: ls => (c :: l) :: ls

/-! ## Snapshot model (internal/alsa monitor, both versions) -/

/-- `ControlState`: volume per channel plus mute flag. -/
structure ControlState where
  Volume : List Int
  Mute : Bool
deriving DecidableEq

/-- `CardState`: map from control name to `ControlState`. -/
structure CardState where
  Controls : List (String × ControlState)
deriving DecidableEq

/-- `StateSnapshot`: map from card ID to `CardState`. -/
structure StateSnapshot where
  Cards : List (Nat × CardState)
deriving DecidableEq

/-- The volume-array comparison loop shared by `computeDelta` and
`hasStateChanged`: `for i, v := range cur { if i >= len(last) || v != last[i] ... }`. -/
def volumeLoop : List Int → List Int → Bool
  | [], _ => false
  | _ :: _, [] => true
  | v :: vs, w :: ws => v != w || volumeLoop vs ws

/-- `volumeChanged` as computed in the source: a length mismatch, else
the element-wise scan. -/
def volumesDiffer (cur lastV : List Int) : Bool :=
  if cur.length != lastV.length then true else volumeLoop cur lastV

/-- One control changed: `volumeChanged || muteChanged` (identical logic
in `computeDelta` and `hasStateChanged`). -/
def controlChanged (cur lastC : ControlState) : Bool :=
  volumesDiffer cur.Volume lastC.Volume || cur.Mute != lastC.Mute

/-- The inner loop of `computeDelta` over one card: controls present in
current but missing from last, or differing, are included. -/
def cardDeltaControls (cur lastC : List (String × ControlState)) :
    List (String × ControlState) :=
  cur.filter (fun p =>
    match lookupKey p.1 lastC with
    | none => true
    | some lc => controlChanged p.2 lc)

/-- The outer loop of `computeDelta`: cards missing from last are
included wholesale; otherwise only a non-empty control delta is kept. -/
def deltaCards (cur lastS : List (Nat × CardState)) : List (Nat × CardState) :=
  cur.filterMap (fun p =>
    match lookupKey p.1 lastS with
    | none => some p
    | some lc =>
      let cd := cardDeltaControls p.2.Controls lc.Controls
      if cd.isEmpty then none else some (p.1, CardState.mk cd))

/-- `Monitor.computeDelta` (monitor.go, delta version): compares current
and last state, returning only what changed.  `last == nil` means first
observation: the whole snapshot is the delta. -/
def computeDelta (current : StateSnapshot) (lastS : Option StateSnapshot) :
    Bool × Option StateSnapshot :=
  match lastS with
  | none => (true, some current)
  | some l =>
    let d := deltaCards current.Cards l.Cards
    if d.isEmpty then (false, none) else (true, some (StateSnapshot.mk d))

/-- `Monitor.hasStateChanged` (monitor.go, boolean version): card-count
check, then per-card control-count check and per-control comparison. -/
def hasStateChanged (current : StateSnapshot) (lastS : Option StateSnapshot) : Bool :=
  match lastS with
  | none => true
  | some l =>
    if current.Cards.length != l.Cards.length then true
    else
      current.Cards.any (fun p =>
        match lookupKey p.1 l.Cards with
        | none => true
        | some lc =>
          if p.2.Controls.length != lc.Controls.length then true
          else
            p.2.Controls.any (fun q =>
              match lookupKey q.1 lc.Controls with
              | none => true
              | some lq => controlChanged q.2 lq))

/-- Replaces the volume array of one control (the first entry with the
given card ID / control name), leaving everything else unchanged.  Used
to state "snapshots differing only in control X's volume". -/
def setControlVolume (s : StateSnapshot) (cardID : Nat) (name : String)
    (v : List Int) : StateSnapshot :=
  StateSnapshot.mk (s.Cards.map (fun p =>
    if p.1 == cardID then
      (p.1, CardState.mk (p.2.Controls.map (fun q =>
        if q.1 == name then (q.1, ControlState.mk v q.2.Mute) else q)))
    else p))

/-- Key uniqueness of a snapshot, as guaranteed by Go maps. -/
def wfSnapshot (s : StateSnapshot) : Prop :=
  (s.Cards.map Prod.fst).Nodup ∧
    ∀ p ∈ s.Cards, (p.2.Controls.map Prod.fst).Nodup

instance (s : StateSnapshot) : Decidable (wfSnapshot s) := by
  unfold wfSnapshot; infer_instance

/-! ## Poller (Monitor.getCurrentState / monitorLoop tick, delta version) -/

/-- A card as returned by `Mixer.ListCards` (only the ID is used by the
monitor). -/
structure Card where
  id : Nat
deriving DecidableEq

/-- A control as returned by `Mixer.ListControls` (name and type are
what the monitor reads). -/
structure ControlInfo where
  name : String
  ctype : String
deriving DecidableEq

/-- The AudioBackend interface consumed by the monitor: enumeration and
reads may fail (`Except Unit` models a Go `error`). -/
structure Backend where
  listCards : Except Unit (List Card)
  listControls : Nat → Except Unit (List ControlInfo)
  getVolume : Nat → String → Except Unit (List Int)
  getMute : Nat → String → Except Unit Bool

/-- Body of `getCurrentState`'s control loop: non-integer/boolean
controls are skipped; a `GetVolume` failure skips that control
(`continue`); a `GetMute` failure (on the derived switch name) defaults
the mute flag to `false`. -/
def buildControl (b : Backend) (cardID : Nat) (c : ControlInfo) :
    Option (String × ControlState) :=
  if c.ctype != "integer" && c.ctype != "boolean" then none
  else
    let volRes : Option (List Int) :=
      if c.ctype == "integer" then
        match b.getVolume cardID c.name with
        | .error _ => none
        | .ok v => some v
      else some []
    match volRes with
    | none => none
    | some vol =>
      let mute :=
        match b.getMute cardID (switchNameOf c.name) with
        | .error _ => false
        | .ok mu => mu
      some (c.name, ControlState.mk vol mute)

/-- Body of `getCurrentState`'s card loop: a `ListControls` failure
skips that card (`continue`), otherwise the card state is assembled
from its controls. -/
def buildCard (b : Backend) (card : Card) : Option (Nat × CardState) :=
  match b.listControls card.id with
  | .error _ => none
  | .ok controls => some (card.id, CardState.mk (controls.filterMap (buildControl b card.id)))

/-- `Monitor.getCurrentState`: `nil` (here `none`) when `ListCards`
fails; otherwise the snapshot assembled card by card. -/
def getCurrentState (b : Backend) : Option StateSnapshot :=
  match b.listCards with
  | .error _ => none
  | .ok cards => some (StateSnapshot.mk (cards.filterMap (buildCard b)))

/-- The `mixer-update` event built by `broadcastDelta`: the delta plus
`source = "monitor"` (timestamp omitted). -/
structure MonitorEvent where
  state : Option StateSnapshot
  source : String
deriving DecidableEq

/-- One iteration of `monitorLoop`'s ticker case: a `nil` current state
means `continue` (no broadcast, `lastState` untouched); otherwise the
delta against `lastState` decides whether to store the current snapshot
and broadcast. -/
def monitorTick (b : Backend) (lastS : Option StateSnapshot) :
    Option StateSnapshot × Option MonitorEvent :=
  match getCurrentState b with
  | none => (lastS, none)
  | some current =>
    let cd := computeDelta current lastS
    if cd.1 then (some current, some (MonitorEvent.mk cd.2 "monitor"))
    else (lastS, none)

/-! ## SSE hub and client transport (Hub.Run broadcast case, Client.WriteEvent) -/

/-- `eventCh := make(chan Event, 10)` in `NewClient`. -/
def clientChanCapacity : Nat := 10

/-- An SSE client as the hub sees it: the buffered outbound channel
contents and the closed flag.  The event payload type is abstract. -/
structure HClient (ε : Type) where
  queue : List ε
  closed : Bool
deriving DecidableEq

/-- `Client.WriteEvent`: error when the client is closed; non-blocking
enqueue (`select { case ch <- e: ... default: error }`) that errors when
the buffered channel is full. -/
def writeEvent {ε : Type} (c : HClient ε) (e : ε) : Except Unit (HClient ε) :=
  if c.closed then .error ()
  else if clientChanCapacity ≤ c.queue.length then .error ()
  else .ok (HClient.mk (c.queue ++ [e]) c.closed)

/-- The broadcast case of `Hub.Run`: for every registered client, try
`WriteEvent`; on error delete the client from the registry and `Close()`
it.  Returns the surviving registry and the clients removed and closed
by this broadcast. -/
def hubBroadcastStep {ε : Type} (clients : List (HClient ε)) (e : ε) :
    List (HClient ε) × List (HClient ε) :=
  clients.foldr (fun c acc =>
    match writeEvent c e with
    | .ok c2 => (c2 :: acc.1, acc.2)
    | .error _ => (acc.1, HClient.mk c.queue true :: acc.2)) ([], [])

/-! ## Wire format (sse.Event.String, multi-line version) -/

/-- `Event.String` (event.go, the version with `IsHTML` and line
splitting), modelled over the already-serialized data payload
(`dataStr` is the JSON or raw HTML string; the `json.Marshal` error
path is not taken once the payload string exists).  The `\r\n`
normalization, per-line `data: ` prefixing and terminating blank line
follow the source. -/
def eventString (id etype : String) (dataStr : List Char) : List Char :=
  let r1 : List Char := if id == "" then [] else ("id: " ++ id ++ "\n").data
  let r2 : List Char := r1 ++ (if etype == "" then [] else ("event: " ++ etype ++ "\n").data)
  let lines := splitOnCh '\n' (replaceCrLf dataStr)
  (lines.foldl (fun acc l => acc ++ "data: ".data ++ l ++ ['\n']) r2) ++ ['\n']

/-! ## Client-side reconciler (web/static/js/mixer-sync.js) -/

/-- One rendered mixer control in the DOM: its identifying data
attributes plus the rendered slider value and mute toggle state. -/
structure DomControl where
  cardId : String
  controlName : String
  volume : Int
  muted : Bool
deriving DecidableEq

/-- The reconciler state: `activeDragControl` (the `cardId + '|' + name`
string, or `null`) and the rendered controls. -/
structure SyncState where
  activeDragControl : Option String
  controls : List DomControl
deriving DecidableEq

/-- `getControlId(cardId, controlName)`: `cardId + '|' + controlName`. -/
def getControlId (cardId controlName : String) : String :=
  cardId ++ "|" ++ controlName

/-- `window.app.setActiveDrag`. -/
def setActiveDrag (st : SyncState) (cardId controlName : String) : SyncState :=
  SyncState.mk (some (getControlId cardId controlName)) st.controls

/-- `window.app.clearActiveDrag`. -/
def clearActiveDrag (st : SyncState) : SyncState :=
  SyncState.mk none st.controls

/-- The `normalized` helper inside `isControlInPayload`:
`n ? n.replace(' Volume', '').toLowerCase() : ''`. -/
def normalizeName (n : List Char) : List Char :=
  (replaceFirst " Volume".data [] n).map Char.toLower

/-- `isControlInPayload(controlName)`: false when nothing is being
dragged; otherwise compares the normalized incoming name with the
normalized name half of `activeDragControl.split('|')[1]`. -/
def isControlInPayload (drag : Option String) (controlName : String) : Bool :=
  match drag with
  | none => false
  | some d =>
    let incoming := normalizeName controlName.data
    let active := normalizeName ((splitOnCh '|' d.data).getD 1 [])
    incoming == active

/-- `findControl(cardId, controlName)`: the first DOM control whose
data attributes match. -/
def findControl (cs : List DomControl) (cardId controlName : String) :
    Option DomControl :=
  cs.find? (fun c => c.cardId == cardId && c.controlName == controlName)

/-- Mutation of the control `findControl` returns: sets the rendered
volume of the first matching DOM control. -/
def setVolumeFirst (cardId controlName : String) (v : Int) :
    List DomControl → List DomControl
  | [] => []
  | c :: cs =>
    if c.cardId == cardId && c.controlName == controlName then
      DomControl.mk c.cardId c.controlName v c.muted :: cs
    else c :: setVolumeFirst cardId controlName v cs

/-- Mutation of the control `findControl` returns: sets the rendered
mute flag of the first matching DOM control. -/
def setMuteFirst (cardId controlName : String) (b : Bool) :
    List DomControl → List DomControl
  | [] => []
  | c :: cs =>
    if c.cardId == cardId && c.controlName == controlName then
      DomControl.mk c.cardId c.controlName c.volume b :: cs
    else c :: setMuteFirst cardId controlName b cs

/-- `updateVolume(cardId, controlName, volume)`: skipped while the drag
guard matches; otherwise clamps with
`Math.max(0, Math.min(100, parseInt(volume, 10) || 0))` and writes the
slider of the found control. -/
def updateVolume (st : SyncState) (cardId controlName : String) (volume : Int) :
    SyncState :=
  if st.activeDragControl.isSome && isControlInPayload st.activeDragControl controlName then
    st
  else
    match findControl st.controls cardId controlName with
    | none => st
    | some _ =>
      let clamped : Int := max 0 (min 100 volume)
      SyncState.mk st.activeDragControl (setVolumeFirst cardId controlName clamped st.controls)

/-- `updateMute(cardId, controlName, muted)`: same guard, writes the
mute toggle of the found control. -/
def updateMute (st : SyncState) (cardId controlName : String) (muted : Bool) :
    SyncState :=
  if st.activeDragControl.isSome && isControlInPayload st.activeDragControl controlName then
    st
  else
    match findControl st.controls cardId controlName with
    | none => st
    | some _ =>
      SyncState.mk st.activeDragControl (setMuteFirst cardId controlName muted st.controls)

/-- The per-control state object inside a `mixer-update` payload:
`Volume` (a JSON array or absent) and `Mute` (a boolean or absent). -/
structure CtrlPayload where
  Volume : Option (List Int)
  Mute : Option Bool
deriving DecidableEq

/-- The two payload shapes `handleMixerUpdate` distinguishes: the
monitor format `state.Cards[cardId].Controls[name]` and the handler
format `state[cardId][name]`.  Both branches traverse card → control
entries and perform the same updates. -/
inductive StateFmt
  | cards (m : List (String × List (String × CtrlPayload)))
  | direct (m : List (String × List (String × CtrlPayload)))
deriving DecidableEq

/-- A `mixer-update` event payload.  `source` and `control` are present
on the wire but never read by this version of `handleMixerUpdate`. -/
structure MixerUpdatePayload where
  state : StateFmt
  source : String
  control : Option String
deriving DecidableEq

/-- The per-control body of both traversal branches: volume is applied
when `state.Volume` is a non-empty array (using `Volume[0]`); mute when
`state.Mute` is a boolean. -/
def applyControlUpdate (st : SyncState) (cardId controlName : String)
    (p : CtrlPayload) : SyncState :=
  let st1 :=
    match p.Volume with
    | some (v :: _) => updateVolume st cardId controlName v
    | _ => st
  match p.Mute with
  | some b => updateMute st1 cardId controlName b
  | none => st1

/-- `handleMixerUpdate(payload)`: while any drag is active, every
update is skipped (`if (activeDragControl) return`), regardless of the
payload's source; otherwise each card/control entry of either payload
format is applied. -/
def handleMixerUpdate (st : SyncState) (p : MixerUpdatePayload) : SyncState :=
  if st.activeDragControl.isSome then st
  else
    let entries :=
      match p.state with
      | .cards m => m
      | .direct m => m
    entries.foldl (fun acc card =>
      card.2.foldl (fun acc2 ctrl =>
        applyControlUpdate acc2 card.1 ctrl.1 ctrl.2) acc) st

/-- The rendered slider value of a control, when present in the DOM. -/
def renderedVolume (st : SyncState) (cardId controlName : String) : Option Int :=
  (findControl st.controls cardId controlName).map DomControl.volume

/-! ## HTTP control handlers (internal/server/handlers.go) -/

/-- Decimal digit accumulator shared by the `strconv` models. -/
def parseDigitsAux : List Char → Nat → Option Nat
  | [], acc => some acc
  | c :: cs, acc =>
    if c.isDigit then parseDigitsAux cs (10 * acc + (c.toNat - '0'.toNat)) else none

/-- Models `strconv.ParseUint(s, 10, 0)` on inputs without overflow:
a non-empty unsigned decimal string. -/
def parseUintGo (s : String) : Option Nat :=
  if s.data.isEmpty then none else parseDigitsAux s.data 0

/-- Models `strconv.Atoi` on inputs without overflow: an optional sign
followed by a non-empty decimal string. -/
def atoiGo (s : String) : Option Int :=
  match s.data with
  | '+' :: cs => if cs.isEmpty then none else (parseDigitsAux cs 0).map Int.ofNat
  | '-' :: cs => if cs.isEmpty then none else (parseDigitsAux cs 0).map (fun n => -(Int.ofNat n))
  | cs => if cs.isEmpty then none else (parseDigitsAux cs 0).map Int.ofNat

/-- Models `strconv.ParseBool`. -/
def parseBoolGo (s : String) : Option Bool :=
  match s with
  | "1" | "t" | "T" | "true" | "TRUE" | "True" => some true
  | "0" | "f" | "F" | "false" | "FALSE" | "False" => some false
  | _ => none

/-- The fields of `getControlView`'s result read by the handlers. -/
structure ControlView where
  name : String
  volumeNow : Int
  muted : Bool
deriving DecidableEq

/-- The essentials of the `mixer-update` event a handler broadcasts:
the single card/control entry of its `state` map, plus `source`. -/
structure HandlerEvent where
  card : Nat
  control : String
  volume : List Int
  mute : Bool
  source : String
deriving DecidableEq

/-- The mixer interface consumed by the control handlers, plus the
server's `getControlView` helper. -/
structure HandlerBackend where
  listControls : Nat → Except Unit (List ControlInfo)
  getMute : Nat → String → Except Unit Bool
  setMute : Nat → String → Bool → Except Unit Unit
  setVolume : Nat → String → List Int → Except Unit Unit
  getControlView : Nat → String → Option ControlView

/-- What `VolumeHandler` produces: the HTTP status, every `SetVolume`
call issued against the backend, and the broadcast event, if any (the
hub is non-nil in the running server). -/
structure VolResponse where
  status : Nat
  setCalls : List (Nat × String × List Int)
  broadcast : Option HandlerEvent
deriving DecidableEq

/-- `VolumeHandler` (handlers.go, current version), modelled from the
form fields onward: missing or unparsable fields are 400; the parsed
volume is clamped into 0..100; the control must appear in a successful
`ListControls` listing (a listing error skips that validation); a
`SetVolume` failure is 500; success broadcasts one `mixer-update` with
`source = "handler"` (when `getControlView` finds the control) and
returns 204. -/
def volumeHandler (b : HandlerBackend) (cardStr control volumeStr : String) :
    VolResponse :=
  if cardStr == "" || control == "" || volumeStr == "" then VolResponse.mk 400 [] none
  else
    match parseUintGo cardStr with
    | none => VolResponse.mk 400 [] none
    | some cardID =>
      match atoiGo volumeStr with
      | none => VolResponse.mk 400 [] none
      | some vol0 =>
        let volume : Int := if vol0 < 0 then 0 else if vol0 > 100 then 100 else vol0
        let notFound : Bool :=
          match b.listControls cardID with
          | .ok controls => !(controls.any (fun c => c.name == control))
          | .error _ => false
        if notFound then VolResponse.mk 400 [] none
        else
          match b.setVolume cardID control [volume] with
          | .error _ => VolResponse.mk 500 [(cardID, control, [volume])] none
          | .ok _ =>
            let bc :=
              match b.getControlView cardID control with
              | none => none
              | some ctrl => some (HandlerEvent.mk cardID control [volume] ctrl.muted "handler")
            VolResponse.mk 204 [(cardID, control, [volume])] bc

/-- What `MuteHandler` produces: the HTTP status, every `SetMute` call
issued against the backend, the broadcast event if any, and the fields
of the JSON response body. -/
structure MuteResponse where
  status : Nat
  setCalls : List (Nat × String × Bool)
  broadcast : Option HandlerEvent
  respMuted : Option Bool
  respPrevMuted : Option Bool
  respClientMuted : Option Bool
deriving DecidableEq

/-- `MuteHandler` (handlers.go, current version), modelled from the
form fields onward: the client-supplied `muted` form value is parsed
into `clientMuted` (used only for diagnostics); the new state is the
negation of `GetMute` on the derived switch control; one `SetMute` is
issued; success broadcasts one `mixer-update` with `source = "handler"`
(when `getControlView` finds the control) and answers with the JSON
body `{card, control, muted, previous_muted, client_muted}`. -/
def muteHandler (b : HandlerBackend) (cardStr control mutedStr : String) :
    MuteResponse :=
  if cardStr == "" || control == "" then MuteResponse.mk 400 [] none none none none
  else
    match parseUintGo cardStr with
    | none => MuteResponse.mk 400 [] none none none none
    | some cardID =>
      let clientMuted :=
        if mutedStr != "" then
          match parseBoolGo mutedStr with
          | some p => p
          | none => false
        else false
      let switchControl := switchNameOf control
      match b.getMute cardID switchControl with
      | .error _ => MuteResponse.mk 500 [] none none none none
      | .ok currentMuted =>
        let newMuted := !currentMuted
        match b.setMute cardID switchControl newMuted with
        | .error _ =>
          MuteResponse.mk 500 [(cardID, switchControl, newMuted)] none none none none
        | .ok _ =>
          let bc :=
            match b.getControlView cardID control with
            | none => none
            | some ctrl =>
              some (HandlerEvent.mk cardID control [ctrl.volumeNow] newMuted "handler")
          MuteResponse.mk 200 [(cardID, switchControl, newMuted)] bc
            (some newMuted) (some currentMuted) (some clientMuted)

/-! ## Helper lemmas on association lists and splitting -/

theorem lookupKey_cons_ne {α β : Type} [BEq α] [LawfulBEq α] {k : α} {p : α × β}
    (l : List (α × β)) (h : p.1 ≠ k) : lookupKey k (p :: l) = lookupKey k l := by
  simp [lookupKey, beq_eq_false_iff_ne.mpr h]

theorem lookupKey_self {α β : Type} [BEq α] [LawfulBEq α] {l : List (α × β)}
    (h : (l.map Prod.fst).Nodup) {p : α × β} (hp : p ∈ l) :
    lookupKey p.1 l = some p.2 := by
  induction l with
  | nil => cases hp
  | cons q qs ih =>
    rcases List.mem_cons.mp hp with rfl | hmem
    · simp [lookupKey]
    · rw [List.map_cons, List.nodup_cons] at h
      have hne : q.1 ≠ p.1 := fun he => h.1 (he ▸ List.mem_map.mpr ⟨p, hmem, rfl⟩)
      rw [lookupKey_cons_ne qs hne]
      exact ih h.2 hmem

theorem lookupKey_eq_none_iff {α β : Type} [BEq α] [LawfulBEq α] {k : α} :
    ∀ {l : List (α × β)}, lookupKey k l = none ↔ ∀ p ∈ l, p.1 ≠ k := by
  intro l
  induction l with
  | nil => simp [lookupKey]
  | cons q qs ih =>
    by_cases h : q.1 = k
    · simp [lookupKey, h]
    · simp [lookupKey, beq_eq_false_iff_ne.mpr h, ih, h]

theorem splitOnCh_ne_nil (sep : Char) : ∀ l : List Char, splitOnCh sep l ≠ []
  | [] => by simp [splitOnCh]
  | c :: cs => by
    simp only [splitOnCh]
    split
    · simp
    · rcases h : splitOnCh sep cs with _ | ⟨l, ls⟩ <;> simp

theorem splitOnCh_not_mem {sep : Char} : ∀ {l : List Char}, sep ∉ l → splitOnCh sep l = [l]
  | [], _ => rfl
  | c :: cs, h => by
    have h1 : ¬(c = sep) := fun he => h (he ▸ List.mem_cons_self c cs)
    have h2 : sep ∉ cs := fun hm => h (List.mem_cons_of_mem c hm)
    simp [splitOnCh, h1, splitOnCh_not_mem h2]

theorem splitOnCh_append {sep : Char} :
    ∀ {a : List Char} (b : List Char), sep ∉ a →
      splitOnCh sep (a ++ sep :: b) = a :: splitOnCh sep b
  | [], b, _ => by simp [splitOnCh]
  | c :: cs, b, h => by
    have h1 : ¬(c = sep) := fun he => h (he ▸ List.mem_cons_self c cs)
    have h2 : sep ∉ cs := fun hm => h (List.mem_cons_of_mem c hm)
    simp only [List.cons_append, splitOnCh, if_neg h1, List.append_eq,
      splitOnCh_append b h2]

/-! ## Claims C2 and C1: the reconciler's suppression behavior -/

theorem isControlInPayload_self (cid n : String)
    (h1 : '|' ∉ cid.data) (h2 : '|' ∉ n.data) :
    isControlInPayload (some (getControlId cid n)) n = true := by
  have hdata : (getControlId cid n).data = cid.data ++ '|' :: n.data := by
    simp [getControlId, String.data_append]
  simp only [isControlInPayload, hdata, splitOnCh_append n.data h1,
    splitOnCh_not_mem h2]
  simp

/-- Claim C2 (drag suppression): while a control is being dragged,
`handleMixerUpdate` drops every incoming mixer-update payload outright
(so every control's rendered value, in particular the dragged one's, is
unchanged, regardless of the event's source), and the per-control
`updateVolume` / `updateMute` guards independently skip updates for the
dragged control. -/
theorem c2_drag_suppression :
    (∀ (st : SyncState) (p : MixerUpdatePayload) (d : String),
      st.activeDragControl = some d → handleMixerUpdate st p = st) ∧
    (∀ (st : SyncState) (cid n : String) (v : Int) (b : Bool),
      st.activeDragControl = some (getControlId cid n) →
      '|' ∉ cid.data → '|' ∉ n.data →
      updateVolume st cid n v = st ∧ updateMute st cid n b = st) := by
  constructor
  · intro st p d h
    simp [handleMixerUpdate, h]
  · intro st cid n v b h h1 h2
    have hin := isControlInPayload_self cid n h1 h2
    constructor
    · simp [updateVolume, h, hin]
    · simp [updateMute, h, hin]

/-- Witness for C2 at a concrete dragging state and payload. -/
theorem c2_drag_suppression_witness :
    handleMixerUpdate
        (SyncState.mk (some "0|Master") [DomControl.mk "0" "Master" 30 false])
        (MixerUpdatePayload.mk
          (StateFmt.cards [("0", [("Master", CtrlPayload.mk (some [70]) none)])])
          "monitor" none) =
      SyncState.mk (some "0|Master") [DomControl.mk "0" "Master" 30 false] ∧
    updateVolume
        (SyncState.mk (some (getControlId "0" "Master"))
          [DomControl.mk "0" "Master" 30 false]) "0" "Master" 70 =
      SyncState.mk (some (getControlId "0" "Master"))
        [DomControl.mk "0" "Master" 30 false] :=
  ⟨c2_drag_suppression.1 _ _ "0|Master" rfl,
   (c2_drag_suppression.2 _ "0" "Master" 70 false rfl (by decide) (by decide)).1⟩

theorem findControl_setVolumeFirst (cid n : String) (v : Int) :
    ∀ cs : List DomControl,
      findControl (setVolumeFirst cid n v cs) cid n =
        (findControl cs cid n).map
          (fun c => DomControl.mk c.cardId c.controlName v c.muted)
  | [] => rfl
  | c :: cs => by
    by_cases h : (c.cardId == cid && c.controlName == n) = true
    · simp [setVolumeFirst, if_pos h, findControl, List.find?, h]
    · simp only [setVolumeFirst, if_neg h, findControl, List.find?]
      rw [Bool.not_eq_true] at h
      simp only [h]
      exact findControl_setVolumeFirst cid n v cs

theorem findControl_setMuteFirst (cid n : String) (b : Bool) :
    ∀ cs : List DomControl,
      findControl (setMuteFirst cid n b cs) cid n =
        (findControl cs cid n).map
          (fun c => DomControl.mk c.cardId c.controlName c.volume b)
  | [] => rfl
  | c :: cs => by
    by_cases h : (c.cardId == cid && c.controlName == n) = true
    · simp [setMuteFirst, if_pos h, findControl, List.find?, h]
    · simp only [setMuteFirst, if_neg h, findControl, List.find?]
      rw [Bool.not_eq_true] at h
      simp only [h]
      exact findControl_setMuteFirst cid n b cs

/-- Claim C1 counterexample: in `mixer-sync.js` there is no cooldown
window at all.  Immediately after an interaction on control
("0", "Master") ends (`clearActiveDrag`), an incoming mixer-update event
with `source = "monitor"` IS applied: the rendered value changes from 30
to the event's 70, contradicting "the event is dropped and C's rendered
value is unchanged" for the post-interaction window. -/
theorem c1_cooldown_counterexample :
    renderedVolume
        (handleMixerUpdate
          (clearActiveDrag
            (SyncState.mk (some "0|Master") [DomControl.mk "0" "Master" 30 false]))
          (MixerUpdatePayload.mk
            (StateFmt.cards [("0", [("Master", CtrlPayload.mk (some [70]) (some false))])])
            "monitor" none))
        "0" "Master" = some 70 ∧
    renderedVolume (SyncState.mk (some "0|Master") [DomControl.mk "0" "Master" 30 false])
        "0" "Master" = some 30 := by
  decide

/-- Claim C1 (amended): the reconciler has no cooldown state — once an
interaction ends (`activeDragControl` is cleared), an incoming
mixer-update event referencing control C is applied whatever its
`source` is: C's rendered value becomes the event's (clamped) value, for
both payload formats. -/
theorem c1_no_cooldown_amended :
    ∀ (controls : List DomControl) (cid n src : String) (ctl : Option String)
      (v : Int) (mb : Option Bool) (useCardsFmt : Bool) (c : DomControl),
      findControl controls cid n = some c →
      renderedVolume
          (handleMixerUpdate (SyncState.mk none controls)
            (MixerUpdatePayload.mk
              (if useCardsFmt then
                StateFmt.cards [(cid, [(n, CtrlPayload.mk (some [v]) mb)])]
              else
                StateFmt.direct [(cid, [(n, CtrlPayload.mk (some [v]) mb)])])
              src ctl))
          cid n = some (max 0 (min 100 v)) := by
  intro controls cid n src ctl v mb useCardsFmt c hfind
  have happly :
      renderedVolume
          (applyControlUpdate (SyncState.mk none controls) cid n
            (CtrlPayload.mk (some [v]) mb)) cid n = some (max 0 (min 100 v)) := by
    simp only [applyControlUpdate, updateVolume, updateMute, isControlInPayload,
      Option.isSome_none, Bool.false_and, if_neg (Bool.false_ne_true), hfind]
    cases mb with
    | none =>
      simp [renderedVolume, findControl_setVolumeFirst, hfind]
    | some b =>
      simp [renderedVolume, findControl_setVolumeFirst, findControl_setMuteFirst, hfind]
  cases useCardsFmt <;>
    simpa [handleMixerUpdate] using happly

/-- Witness for the amended C1 at a concrete DOM and a monitor-sourced
event. -/
theorem c1_no_cooldown_amended_witness :
    renderedVolume
        (handleMixerUpdate (SyncState.mk none [DomControl.mk "0" "Master" 30 false])
          (MixerUpdatePayload.mk
            (StateFmt.cards [("0", [("Master", CtrlPayload.mk (some [70]) none)])])
            "monitor" none))
        "0" "Master" = some (max 0 (min 100 70)) :=
  c1_no_cooldown_amended [DomControl.mk "0" "Master" 30 false] "0" "Master"
    "monitor" none 70 none true (DomControl.mk "0" "Master" 30 false) (by decide)

/-! ## Claim C5: hub broadcast backpressure -/

/-- Claim C5 (backpressure isolation): one `Hub.Run` broadcast keeps
exactly the clients that are open and have room in their bounded queue —
each of those receives the event, appended once to its queue — while
every client that is closed or whose queue is full is removed from the
registry and closed, without affecting what any other client receives. -/
theorem c5_backpressure_isolation {ε : Type} :
    ∀ (clients : List (HClient ε)) (e : ε),
      hubBroadcastStep clients e =
        ((clients.filter
            (fun c => !c.closed && !(decide (clientChanCapacity ≤ c.queue.length)))).map
          (fun c => HClient.mk (c.queue ++ [e]) c.closed),
        (clients.filter
            (fun c => c.closed || decide (clientChanCapacity ≤ c.queue.length))).map
          (fun c => HClient.mk c.queue true)) := by
  intro clients e
  induction clients with
  | nil => rfl
  | cons c cs ih =>
    by_cases h1 : c.closed
    · simp [hubBroadcastStep, writeEvent, h1, List.filter_cons] at *
      simp [ih]
    · by_cases h2 : clientChanCapacity ≤ c.queue.length
      · simp [hubBroadcastStep, writeEvent, h1, h2, List.filter_cons] at *
        simp [ih]
      · simp [hubBroadcastStep, writeEvent, h1, h2, List.filter_cons] at *
        simp [ih]

/-! ## Claim C8: wire event serialization -/

theorem foldl_data_chunks (f : List Char → List Char) :
    ∀ (L : List (List Char)) (init : List Char),
      L.foldl (fun acc l => acc ++ f l) init = init ++ (L.map f).flatten
  | [], init => by simp
  | l :: ls, init => by
    simp [foldl_data_chunks f ls, List.append_assoc]

theorem eventString_eq (id etype : String) (dataStr : List Char) :
    eventString id etype dataStr =
      ((if id == "" then ([] : List Char) else ("id: " ++ id ++ "\n").data) ++
        (if etype == "" then ([] : List Char) else ("event: " ++ etype ++ "\n").data)) ++
      ((splitOnCh '\n' (replaceCrLf dataStr)).map
        (fun l => "data: ".data ++ l ++ ['\n'])).flatten ++ ['\n'] := by
  simp [eventString, foldl_data_chunks, List.append_assoc]

theorem chunks_end_with_nl :
    ∀ lines : List (List Char), lines ≠ [] →
      ∃ A : List Char,
        (lines.map (fun l => "data: ".data ++ l ++ ['\n'])).flatten = A ++ ['\n']
  | [], h => absurd rfl h
  | [l], _ => ⟨"data: ".data ++ l, by simp⟩
  | l :: l2 :: ls, _ => by
    obtain ⟨A, hA⟩ := chunks_end_with_nl (l2 :: ls) (by simp)
    refine ⟨("data: ".data ++ l ++ ['\n']) ++ A, ?_⟩
    rw [List.map_cons, List.flatten_cons, hA]
    simp [List.append_assoc]

/-- Claim C8 (wire format): every serialized event ends with a blank
line (its character list ends in two newlines), and every line of the
(normalized) data payload — in particular each line of a multi-line
payload — occurs in the output as its own `data: `-prefixed,
newline-terminated line. -/
theorem c8_wire_format :
    ∀ (id etype : String) (dataStr : List Char),
      (['\n', '\n'] <:+ eventString id etype dataStr) ∧
      (∀ l ∈ splitOnCh '\n' (replaceCrLf dataStr),
        ("data: ".data ++ l ++ ['\n']) <:+: eventString id etype dataStr) := by
  intro id etype dataStr
  constructor
  · obtain ⟨A, hA⟩ :=
      chunks_end_with_nl (splitOnCh '\n' (replaceCrLf dataStr))
        (splitOnCh_ne_nil '\n' (replaceCrLf dataStr))
    rw [eventString_eq, hA]
    refine ⟨((if id == "" then ([] : List Char) else ("id: " ++ id ++ "\n").data) ++
        (if etype == "" then ([] : List Char) else ("event: " ++ etype ++ "\n").data)) ++ A,
      ?_⟩
    simp [List.append_assoc]
  · intro l hl
    have h1 : ("data: ".data ++ l ++ ['\n']) ∈
        (splitOnCh '\n' (replaceCrLf dataStr)).map
          (fun l => "data: ".data ++ l ++ ['\n']) :=
      List.mem_map.mpr ⟨l, hl, rfl⟩
    have h2 := List.infix_of_mem_flatten h1
    refine h2.trans ?_
    rw [eventString_eq]
    exact ⟨(if id == "" then ([] : List Char) else ("id: " ++ id ++ "\n").data) ++
        (if etype == "" then ([] : List Char) else ("event: " ++ etype ++ "\n").data),
      ['\n'], by simp [List.append_assoc]⟩

/-- Witness for C8 on a concrete two-line payload. -/
theorem c8_wire_format_witness :
    ("data: ".data ++ "ab".data ++ ['\n']) <:+:
      eventString "7" "mixer-update" "ab\ncd".data :=
  (c8_wire_format "7" "mixer-update" "ab\ncd".data).2 "ab".data (by decide)

/-! ## Claim C9: hasStateChanged versus computeDelta -/

/-- Claim C9 counterexample: for `current` empty and `last` holding one
card, `hasStateChanged` answers true (the card counts differ) while
`computeDelta` reports no change (it only traverses the cards of
`current`), so the two change detectors are not equivalent on inputs
where a card present in last is absent from current. -/
theorem c9_equivalence_counterexample :
    hasStateChanged (StateSnapshot.mk [])
        (some (StateSnapshot.mk [(0, CardState.mk [])])) = true ∧
    (computeDelta (StateSnapshot.mk [])
        (some (StateSnapshot.mk [(0, CardState.mk [])]))).1 = false := by
  decide

/-- Claim C9 (amended): whenever `computeDelta` reports a change,
`hasStateChanged` answers true; the converse direction fails when a
card or control present in last is absent from current (see the
counterexample). -/
theorem c9_delta_implies_changed :
    ∀ (current : StateSnapshot) (lastS : Option StateSnapshot),
      (computeDelta current lastS).1 = true → hasStateChanged current lastS = true := by
  intro current lastS h
  cases lastS with
  | none => rfl
  | some l =>
    rw [computeDelta] at h
    by_cases hd : (deltaCards current.Cards l.Cards).isEmpty
    · rw [if_pos hd] at h
      simp at h
    · rw [hasStateChanged]
      by_cases hlen : (current.Cards.length != l.Cards.length) = true
      · rw [if_pos hlen]
      · rw [if_neg hlen]
        have hne : deltaCards current.Cards l.Cards ≠ [] := by
          simpa [List.isEmpty_iff] using hd
        rw [deltaCards] at hne
        have hex : ∃ p ∈ current.Cards,
            ¬((fun p : Nat × CardState =>
              match lookupKey p.1 l.Cards with
              | none => some p
              | some lc =>
                let cd := cardDeltaControls p.2.Controls lc.Controls
                if cd.isEmpty then none else some (p.1, CardState.mk cd)) p = none) := by
          by_contra hall
          push_neg at hall
          exact hne (List.filterMap_eq_nil_iff.mpr hall)
        obtain ⟨p, hp, hfp⟩ := hex
        rw [List.any_eq_true]
        refine ⟨p, hp, ?_⟩
        simp only at hfp
        cases hlk : lookupKey p.1 l.Cards with
        | none => simp [hlk]
        | some lc =>
          rw [hlk] at hfp
          simp only at hfp
          by_cases hcd : (cardDeltaControls p.2.Controls lc.Controls).isEmpty
          · rw [if_pos hcd] at hfp
            exact absurd rfl hfp
          · have hcdne : cardDeltaControls p.2.Controls lc.Controls ≠ [] := by
              simpa [List.isEmpty_iff] using hcd
            rw [cardDeltaControls] at hcdne
            obtain ⟨q, hq⟩ := List.exists_mem_of_ne_nil _ hcdne
            have hq2 := List.mem_filter.mp hq
            simp only [hlk]
            by_cases hlen2 : (p.2.Controls.length != lc.Controls.length) = true
            · simp [hlen2]
            · rw [if_neg hlen2, List.any_eq_true]
              exact ⟨q, hq2.1, hq2.2⟩

/-- Witness for the amended C9 at a concrete changed pair of snapshots. -/
theorem c9_delta_implies_changed_witness :
    hasStateChanged
        (StateSnapshot.mk [(0, CardState.mk [("Master", ControlState.mk [40] false)])])
        (some (StateSnapshot.mk [(0, CardState.mk [("Master", ControlState.mk [30] false)])]))
      = true :=
  c9_delta_implies_changed
    (StateSnapshot.mk [(0, CardState.mk [("Master", ControlState.mk [40] false)])])
    (some (StateSnapshot.mk [(0, CardState.mk [("Master", ControlState.mk [30] false)])]))
    (by decide)

/-! ## Self-comparison lemmas for computeDelta -/

theorem volumeLoop_self : ∀ v : List Int, volumeLoop v v = false
  | [] => rfl
  | x :: xs => by simp [volumeLoop, volumeLoop_self xs]

theorem volumesDiffer_self (v : List Int) : volumesDiffer v v = false := by
  simp [volumesDiffer, volumeLoop_self]

theorem controlChanged_self (x : ControlState) : controlChanged x x = false := by
  simp [controlChanged, volumesDiffer_self]

theorem cardDeltaControls_self {l : List (String × ControlState)}
    (h : (l.map Prod.fst).Nodup) : cardDeltaControls l l = [] := by
  rw [cardDeltaControls, List.filter_eq_nil_iff]
  intro p hp
  rw [lookupKey_self h hp]
  simp [controlChanged_self]

theorem deltaCards_self {s : StateSnapshot} (h : wfSnapshot s) :
    deltaCards s.Cards s.Cards = [] := by
  rw [deltaCards, List.filterMap_eq_nil_iff]
  intro p hp
  rw [lookupKey_self h.1 hp]
  simp [cardDeltaControls_self (h.2 p hp)]

theorem computeDelta_self {s : StateSnapshot} (h : wfSnapshot s) :
    computeDelta s (some s) = (false, none) := by
  rw [computeDelta]
  simp [deltaCards_self h]

/-! ## Claim C7: no broadcast when consecutive polls are identical -/

/-- Claim C7 (no-broadcast-on-no-change): when two consecutive ticks
observe the same snapshot (the backend is unchanged between them), the
second tick broadcasts nothing and leaves the stored last-good snapshot
pointer exactly as the first tick left it. -/
theorem c7_no_broadcast_on_no_change :
    ∀ (b : Backend) (lastS : Option StateSnapshot) (S : StateSnapshot),
      wfSnapshot S → getCurrentState b = some S →
      monitorTick b (monitorTick b lastS).1 = ((monitorTick b lastS).1, none) := by
  intro b lastS S hwf hS
  have h1 : monitorTick b lastS =
      (if (computeDelta S lastS).1 then
        (some S, some (MonitorEvent.mk (computeDelta S lastS).2 "monitor"))
      else (lastS, none)) := by
    simp [monitorTick, hS]
  by_cases hch : (computeDelta S lastS).1 = true
  · rw [h1, if_pos hch]
    simp only
    simp [monitorTick, hS, computeDelta_self hwf]
  · rw [h1, if_neg hch]
    simp only
    rw [Bool.not_eq_true] at hch
    simp [monitorTick, hS, hch]

/-- Witness for C7: a concrete backend observed twice. -/
theorem c7_no_broadcast_witness :
    monitorTick
        (Backend.mk (.ok [Card.mk 0])
          (fun _ => .ok [ControlInfo.mk "Master" "integer"])
          (fun _ _ => .ok [30]) (fun _ _ => .error ()))
        (monitorTick
          (Backend.mk (.ok [Card.mk 0])
            (fun _ => .ok [ControlInfo.mk "Master" "integer"])
            (fun _ _ => .ok [30]) (fun _ _ => .error ()))
          none).1 =
      ((monitorTick
          (Backend.mk (.ok [Card.mk 0])
            (fun _ => .ok [ControlInfo.mk "Master" "integer"])
            (fun _ _ => .ok [30]) (fun _ _ => .error ()))
          none).1, none) :=
  c7_no_broadcast_on_no_change _ none
    (StateSnapshot.mk [(0, CardState.mk [("Master", ControlState.mk [30] false)])])
    (by decide) (by decide)

/-! ## Claim C6: poll-tick failure handling -/

/-- A backend for which `ListControls` fails on card 1 while card 0
reports a changed Master volume. -/
def c6backend : Backend :=
  Backend.mk (.ok [Card.mk 0, Card.mk 1])
    (fun i => if i == 0 then .ok [ControlInfo.mk "Master" "integer"] else .error ())
    (fun _ _ => .ok [40])
    (fun _ _ => .error ())

/-- The last-good snapshot before the failing tick: both cards known. -/
def c6last : StateSnapshot :=
  StateSnapshot.mk
    [(0, CardState.mk [("Master", ControlState.mk [30] false)]),
     (1, CardState.mk [("PCM", ControlState.mk [50] false)])]

/-- Claim C6 counterexample: on a tick where `ListControls` fails for
card 1 (an individual-card enumeration failure) while card 0's volume
changed, the tick is NOT skipped: an event is broadcast and the stored
last-good snapshot is replaced by a partial snapshot missing card 1 —
contradicting the claimed atomic skip for `ListControls` failures. -/
theorem c6_skip_counterexample :
    c6backend.listControls 1 = .error () ∧
    monitorTick c6backend (some c6last) =
      (some (StateSnapshot.mk [(0, CardState.mk [("Master", ControlState.mk [40] false)])]),
       some (MonitorEvent.mk
        (some (StateSnapshot.mk [(0, CardState.mk [("Master", ControlState.mk [40] false)])]))
        "monitor")) ∧
    StateSnapshot.mk [(0, CardState.mk [("Master", ControlState.mk [40] false)])] ≠ c6last := by
  refine ⟨rfl, ?_, ?_⟩ <;> decide

/-- Claim C6 (amended): a `ListCards` failure skips the tick atomically
(no broadcast, last-good snapshot untouched, next tick proceeds), while
a `ListControls` failure on an individual card does not skip the tick:
the snapshot is still built — it merely omits the failed card — and the
tick proceeds with delta computation against it. -/
theorem c6_tick_failure_handling :
    (∀ (b : Backend) (lastS : Option StateSnapshot),
      b.listCards = .error () → monitorTick b lastS = (lastS, none)) ∧
    (∀ (b : Backend) (cards : List Card) (card : Card),
      b.listCards = .ok cards → card ∈ cards → b.listControls card.id = .error () →
      ∃ snap, getCurrentState b = some snap ∧ lookupKey card.id snap.Cards = none) := by
  constructor
  · intro b lastS h
    simp [monitorTick, getCurrentState, h]
  · intro b cards card hok hmem herr
    refine ⟨StateSnapshot.mk (cards.filterMap (buildCard b)), by simp [getCurrentState, hok], ?_⟩
    rw [lookupKey_eq_none_iff]
    intro p hp
    obtain ⟨c, hc, hbc⟩ := List.mem_filterMap.mp hp
    rw [buildCard] at hbc
    cases hlc : b.listControls c.id with
    | error e =>
      rw [hlc] at hbc
      cases hbc
    | ok ctrls =>
      rw [hlc] at hbc
      have hp1 : p.1 = c.id := by
        have := Option.some.inj hbc
        rw [← this]
      intro heq
      rw [hp1] at heq
      rw [heq, herr] at hlc
      cases hlc

/-- Witness for C6: both conjuncts at concrete backends. -/
theorem c6_tick_failure_handling_witness :
    monitorTick
        (Backend.mk (.error ()) (fun _ => .error ())
          (fun _ _ => .error ()) (fun _ _ => .error ()))
        (some c6last) = (some c6last, none) ∧
    ∃ snap, getCurrentState c6backend = some snap ∧ lookupKey 1 snap.Cards = none :=
  ⟨c6_tick_failure_handling.1 _ (some c6last) rfl,
   c6_tick_failure_handling.2 c6backend [Card.mk 0, Card.mk 1] (Card.mk 1)
     rfl (by decide) rfl⟩

/-! ## Claim C4: volume write validation -/

theorem parseUintGo_empty : parseUintGo "" = none := rfl

theorem atoiGo_empty : atoiGo "" = none := rfl

/-- A healthy backend knowing control "Master" on every card. -/
def c4backend : HandlerBackend :=
  HandlerBackend.mk
    (fun _ => .ok [ControlInfo.mk "Master" "integer"])
    (fun _ _ => .ok false)
    (fun _ _ _ => .ok ())
    (fun _ _ _ => .ok ())
    (fun _ _ => some (ControlView.mk "Master" 100 false))

/-- A backend whose enumeration and writes fail (device invalid /
unavailable). -/
def c4errBackend : HandlerBackend :=
  HandlerBackend.mk
    (fun _ => .error ())
    (fun _ _ => .error ())
    (fun _ _ _ => .error ())
    (fun _ _ _ => .error ())
    (fun _ _ => none)

/-- Claim C4 counterexample: a volume write of 150 — outside 0..100 —
is not rejected with a client error: `VolumeHandler` clamps it to 100,
calls `SetVolume`, broadcasts a `mixer-update` and answers 204. -/
theorem c4_out_of_range_counterexample :
    volumeHandler c4backend "0" "Master" "150" =
      VolResponse.mk 204 [(0, "Master", [100])]
        (some (HandlerEvent.mk 0 "Master" [100] false "handler")) := by
  decide

/-- Claim C4 (amended): missing or non-numeric fields are answered 400
with no broadcast; a control absent from a successful `ListControls`
listing is answered 400 with no broadcast; an out-of-range numeric
value is clamped into 0..100 and processed normally (`SetVolume` is
called with the clamped value and success is a 204, with a broadcast);
and when `ListControls` itself fails the control-existence validation
is skipped, so an invalid device surfaces as a `SetVolume` failure
answered 500 — a server error, not a client error — with no
broadcast. -/
theorem c4_validation_behavior :
    (∀ (b : HandlerBackend) (cardStr control volumeStr : String),
      atoiGo volumeStr = none →
      volumeHandler b cardStr control volumeStr = VolResponse.mk 400 [] none) ∧
    (∀ (b : HandlerBackend) (cardStr control volumeStr : String) (cardID : Nat)
      (vol : Int) (controls : List ControlInfo),
      parseUintGo cardStr = some cardID → atoiGo volumeStr = some vol →
      b.listControls cardID = .ok controls →
      controls.any (fun c => c.name == control) = false →
      volumeHandler b cardStr control volumeStr = VolResponse.mk 400 [] none) ∧
    (∀ (b : HandlerBackend) (cardStr control volumeStr : String) (cardID : Nat)
      (vol : Int),
      parseUintGo cardStr = some cardID → atoiGo volumeStr = some vol →
      100 < vol → control ≠ "" →
      (match b.listControls cardID with
        | .ok controls => !(controls.any (fun c => c.name == control))
        | .error _ => false) = false →
      (volumeHandler b cardStr control volumeStr).setCalls = [(cardID, control, [100])] ∧
      (b.setVolume cardID control [100] = .ok () →
        (volumeHandler b cardStr control volumeStr).status = 204)) ∧
    (∀ (b : HandlerBackend) (cardStr control volumeStr : String) (cardID : Nat)
      (vol : Int),
      parseUintGo cardStr = some cardID → atoiGo volumeStr = some vol →
      control ≠ "" →
      b.listControls cardID = .error () →
      b.setVolume cardID control
          [if vol < 0 then 0 else if vol > 100 then 100 else vol] = .error () →
      volumeHandler b cardStr control volumeStr =
        VolResponse.mk 500
          [(cardID, control, [if vol < 0 then 0 else if vol > 100 then 100 else vol])]
          none) := by
  refine ⟨?_, ?_, ?_, ?_⟩
  · intro b cardStr control volumeStr hv
    by_cases h1 : (cardStr == "" || control == "" || volumeStr == "") = true
    · simp [volumeHandler, h1]
    · cases hp : parseUintGo cardStr <;> simp [volumeHandler, h1, hp, hv]
  · intro b cardStr control volumeStr cardID vol controls hp hv hlc hany
    by_cases h1 : (cardStr == "" || control == "" || volumeStr == "") = true
    · simp [volumeHandler, h1]
    · simp [volumeHandler, h1, hp, hv, hlc, hany]
  · intro b cardStr control volumeStr cardID vol hp hv h100 hc hnf
    have hcs : cardStr ≠ "" := by
      intro he; rw [he, parseUintGo_empty] at hp; cases hp
    have hvs : volumeStr ≠ "" := by
      intro he; rw [he, atoiGo_empty] at hv; cases hv
    have h1 : (cardStr == "" || control == "" || volumeStr == "") = false := by
      simp [hcs, hc, hvs]
    have hneg : ¬(vol < 0) := by omega
    constructor
    · cases hsv : b.setVolume cardID control [100] <;>
        simp [volumeHandler, h1, hp, hv, hneg, h100, hnf, hsv]
    · intro hok
      simp [volumeHandler, h1, hp, hv, hneg, h100, hnf, hok]
  · intro b cardStr control volumeStr cardID vol hp hv hc hlc hsv
    have hcs : cardStr ≠ "" := by
      intro he; rw [he, parseUintGo_empty] at hp; cases hp
    have hvs : volumeStr ≠ "" := by
      intro he; rw [he, atoiGo_empty] at hv; cases hv
    have h1 : (cardStr == "" || control == "" || volumeStr == "") = false := by
      simp [hcs, hc, hvs]
    simp [volumeHandler, h1, hp, hv, hlc, hsv]

/-- Witness for C4: all four behaviors at concrete requests. -/
theorem c4_validation_behavior_witness :
    volumeHandler c4backend "0" "Master" "abc" = VolResponse.mk 400 [] none ∧
    volumeHandler c4backend "0" "Nope" "50" = VolResponse.mk 400 [] none ∧
    (volumeHandler c4backend "0" "Master" "150").setCalls = [(0, "Master", [100])] ∧
    volumeHandler c4errBackend "0" "Master" "50" =
      VolResponse.mk 500 [(0, "Master", [50])] none :=
  ⟨c4_validation_behavior.1 c4backend "0" "Master" "abc" (by decide),
   c4_validation_behavior.2.1 c4backend "0" "Nope" "50" 0 50
     [ControlInfo.mk "Master" "integer"] (by decide) (by decide) rfl (by decide),
   (c4_validation_behavior.2.2.1 c4backend "0" "Master" "150" 0 150
     (by decide) (by decide) (by decide) (by decide) (by decide)).1,
   c4_validation_behavior.2.2.2 c4errBackend "0" "Master" "50" 0 50
     (by decide) (by decide) (by decide) rfl rfl⟩

/-! ## Claim C10: the client-supplied muted value has no influence -/

/-- Claim C10 (mute-toggle noninterference): two mute requests that
differ only in the client-supplied `muted` form value produce the same
HTTP status, the same `SetMute` calls against the backend, the same
broadcast event, and the same `muted` / `previous_muted` response
fields — the form value is only echoed back as `client_muted`.
Moreover the state written and broadcast is the negation of the
backend's `GetMute` result. -/
theorem c10_client_muted_no_influence :
    (∀ (b : HandlerBackend) (cardStr control s1 s2 : String),
      (muteHandler b cardStr control s1).status = (muteHandler b cardStr control s2).status ∧
      (muteHandler b cardStr control s1).setCalls = (muteHandler b cardStr control s2).setCalls ∧
      (muteHandler b cardStr control s1).broadcast = (muteHandler b cardStr control s2).broadcast ∧
      (muteHandler b cardStr control s1).respMuted = (muteHandler b cardStr control s2).respMuted ∧
      (muteHandler b cardStr control s1).respPrevMuted =
        (muteHandler b cardStr control s2).respPrevMuted) ∧
    (∀ (b : HandlerBackend) (cardStr control mutedStr : String) (cardID : Nat) (cur : Bool),
      parseUintGo cardStr = some cardID → control ≠ "" →
      b.getMute cardID (switchNameOf control) = .ok cur →
      b.setMute cardID (switchNameOf control) (!cur) = .ok () →
      (muteHandler b cardStr control mutedStr).setCalls =
        [(cardID, switchNameOf control, !cur)] ∧
      ∀ e, (muteHandler b cardStr control mutedStr).broadcast = some e → e.mute = !cur) := by
  constructor
  · intro b cardStr control s1 s2
    by_cases h1 : (cardStr == "" || control == "") = true
    · simp [muteHandler, h1]
    · cases hp : parseUintGo cardStr with
      | none => simp [muteHandler, h1, hp]
      | some cardID =>
        cases hg : b.getMute cardID (switchNameOf control) with
        | error e => simp [muteHandler, h1, hp, hg]
        | ok cur =>
          cases hs : b.setMute cardID (switchNameOf control) (!cur) with
          | error e => simp [muteHandler, h1, hp, hg, hs]
          | ok u => simp [muteHandler, h1, hp, hg, hs]
  · intro b cardStr control mutedStr cardID cur hp hc hg hs
    have hcs : cardStr ≠ "" := by
      intro he; rw [he, parseUintGo_empty] at hp; cases hp
    have h1 : (cardStr == "" || control == "") = false := by simp [hcs, hc]
    constructor
    · cases hv : b.getControlView cardID control <;>
        simp [muteHandler, h1, hp, hg, hs, hv]
    · intro e he
      cases hv : b.getControlView cardID control with
      | none => simp [muteHandler, h1, hp, hg, hs, hv] at he
      | some ctrl =>
        simp [muteHandler, h1, hp, hg, hs, hv] at he
        rw [← he]

/-- Witness for C10 at a concrete request. -/
theorem c10_client_muted_no_influence_witness :
    (muteHandler c4backend "0" "Master" "true").setCalls =
      [(0, switchNameOf "Master", !false)] ∧
    ∀ e, (muteHandler c4backend "0" "Master" "true").broadcast = some e →
      e.mute = !false :=
  c10_client_muted_no_influence.2 c4backend "0" "Master" "true" 0 false
    (by decide) (by decide) rfl rfl

/-! ## Claim C3: delta correctness -/

theorem volumeLoop_false_eq : ∀ {v w : List Int},
    v.length = w.length → volumeLoop v w = false → v = w
  | [], [], _, _ => rfl
  | [], _ :: _, h, _ => by simp at h
  | _ :: _, [], _, h2 => by simp [volumeLoop] at h2
  | a :: as, b :: bs, h, h2 => by
    rw [volumeLoop, Bool.or_eq_false_iff] at h2
    have ha : a = b := by simpa using h2.1
    have hl : as.length = bs.length := by
      simpa using h
    rw [ha, volumeLoop_false_eq hl h2.2]

theorem volumesDiffer_of_ne {v w : List Int} (h : v ≠ w) : volumesDiffer v w = true := by
  rw [volumesDiffer]
  by_cases hl : (v.length != w.length) = true
  · rw [if_pos hl]
  · rw [if_neg hl]
    rw [Bool.not_eq_true] at hl
    have hlen : v.length = w.length := by simpa using hl
    by_cases h2 : volumeLoop v w = false
    · exact absurd (volumeLoop_false_eq hlen h2) h
    · rwa [Bool.not_eq_false] at h2

theorem filter_key_eq {α β : Type} [BEq α] [LawfulBEq α] :
    ∀ {l : List (α × β)}, (l.map Prod.fst).Nodup →
      ∀ {k : α} {w : β}, lookupKey k l = some w →
        l.filter (fun q => q.1 == k) = [(k, w)] := by
  intro l
  induction l with
  | nil => intro _ k w h; cases h
  | cons p ps ih =>
    intro hnd k w hlk
    rw [List.map_cons, List.nodup_cons] at hnd
    by_cases hpk : (p.1 == k) = true
    · have hk : p.1 = k := by simpa using hpk
      have hw : p.2 = w := by
        have : lookupKey k (p :: ps) = some p.2 := by simp [lookupKey, hpk]
        rw [this] at hlk
        exact Option.some.inj hlk
      have hrest : ps.filter (fun q => q.1 == k) = [] := by
        rw [List.filter_eq_nil_iff]
        intro q hq
        intro hqk
        have hqk2 : q.1 = k := by simpa using hqk
        exact hnd.1 (by rw [hk, ← hqk2]; exact List.mem_map.mpr ⟨q, hq, rfl⟩)
      rw [List.filter_cons, if_pos hpk, hrest]
      have hp : p = (k, w) := by
        obtain ⟨x, y⟩ := p
        simp only at hk hw
        rw [hk, hw]
      rw [hp]
    · have hk : p.1 ≠ k := by simpa using hpk
      rw [List.filter_cons, if_neg hpk]
      rw [lookupKey_cons_ne ps hk] at hlk
      exact ih hnd.2 hlk

theorem filterMap_single {α β γ : Type} [BEq α] [LawfulBEq α] :
    ∀ {l : List (α × β)}, (l.map Prod.fst).Nodup →
      ∀ {k : α} {w : β}, lookupKey k l = some w →
      ∀ (f : α × β → Option γ) (y : γ),
        (∀ p ∈ l, p.1 ≠ k → f p = none) → f (k, w) = some y →
        l.filterMap f = [y] := by
  intro l
  induction l with
  | nil => intro _ k w h; cases h
  | cons p ps ih =>
    intro hnd k w hlk f y hother hhit
    rw [List.map_cons, List.nodup_cons] at hnd
    by_cases hpk : (p.1 == k) = true
    · have hk : p.1 = k := by simpa using hpk
      have hw : p.2 = w := by
        have : lookupKey k (p :: ps) = some p.2 := by simp [lookupKey, hpk]
        rw [this] at hlk
        exact Option.some.inj hlk
      have hp : p = (k, w) := by
        obtain ⟨x, y2⟩ := p
        simp only at hk hw
        rw [hk, hw]
      have hrest : ps.filterMap f = [] := by
        rw [List.filterMap_eq_nil_iff]
        intro q hq
        refine hother q (List.mem_cons_of_mem p hq) ?_
        intro hqk
        exact hnd.1 (by rw [hk, ← hqk]; exact List.mem_map.mpr ⟨q, hq, rfl⟩)
      rw [List.filterMap_cons, hp, hhit, hrest]
    · have hk : p.1 ≠ k := by simpa using hpk
      rw [List.filterMap_cons, hother p (List.mem_cons_self p ps) hk]
      rw [lookupKey_cons_ne ps hk] at hlk
      exact ih hnd.2 hlk f y
        (fun q hq => hother q (List.mem_cons_of_mem p hq)) hhit

theorem cardDeltaControls_update {l : List (String × ControlState)} {n : String}
    {ctrl : ControlState} {v : List Int}
    (hnd : (l.map Prod.fst).Nodup)
    (hn : lookupKey n l = some ctrl)
    (hv : volumesDiffer v ctrl.Volume = true) :
    cardDeltaControls
        (l.map (fun q => if q.1 == n then (q.1, ControlState.mk v q.2.Mute) else q)) l =
      [(n, ControlState.mk v ctrl.Mute)] := by
  rw [cardDeltaControls, List.filter_map]
  have hcong : ∀ q ∈ l,
      ((fun p : String × ControlState =>
        match lookupKey p.1 l with
        | none => true
        | some lc => controlChanged p.2 lc) ∘
        (fun q => if q.1 == n then (q.1, ControlState.mk v q.2.Mute) else q)) q =
      (q.1 == n) := by
    intro q hq
    by_cases hk : (q.1 == n) = true
    · have hk2 : q.1 = n := by simpa using hk
      have hlq : lookupKey q.1 l = some q.2 := lookupKey_self hnd hq
      have hq2 : q.2 = ctrl := by
        rw [hk2] at hlq
        rw [hlq] at hn
        exact Option.some.inj hn
      simp only [Function.comp, if_pos hk]
      rw [hk2] at hlq ⊢
      rw [hlq]
      simp [controlChanged, hq2, hv, hk]
    · have hk2 : q.1 ≠ n := by simpa using hk
      have hlq : lookupKey q.1 l = some q.2 := lookupKey_self hnd hq
      simp only [Function.comp, if_neg hk]
      rw [hlq]
      simp [controlChanged_self, hk]
  rw [List.filter_congr hcong, filter_key_eq hnd hn]
  simp

theorem lookupKey_mem {α β : Type} [BEq α] [LawfulBEq α] :
    ∀ {l : List (α × β)} {k : α} {w : β}, lookupKey k l = some w → (k, w) ∈ l := by
  intro l
  induction l with
  | nil => intro k w h; cases h
  | cons p ps ih =>
    intro k w h
    by_cases hpk : (p.1 == k) = true
    · have hk : p.1 = k := by simpa using hpk
      have h2 : lookupKey k (p :: ps) = some p.2 := by simp [lookupKey, hpk]
      rw [h2] at h
      have hw := Option.some.inj h
      refine List.mem_cons.mpr (Or.inl ?_)
      obtain ⟨x, y⟩ := p
      simp only at hk hw
      rw [hk, hw]
    · have hk : p.1 ≠ k := by simpa using hpk
      rw [lookupKey_cons_ne ps hk] at h
      exact List.mem_cons_of_mem p (ih h)

theorem deltaCards_update {S : StateSnapshot} {c : Nat} {n : String} {v : List Int}
    {card : CardState} {ctrl : ControlState}
    (hwf : wfSnapshot S)
    (hc : lookupKey c S.Cards = some card)
    (hn : lookupKey n card.Controls = some ctrl)
    (hv : volumesDiffer v ctrl.Volume = true) :
    deltaCards (setControlVolume S c n v).Cards S.Cards =
      [(c, CardState.mk [(n, ControlState.mk v ctrl.Mute)])] := by
  have hcmem : (c, card) ∈ S.Cards := lookupKey_mem hc
  have hndc : (card.Controls.map Prod.fst).Nodup := hwf.2 (c, card) hcmem
  rw [setControlVolume]
  simp only
  rw [deltaCards, List.filterMap_map]
  apply filterMap_single hwf.1 hc
  · intro p hp hpc
    simp only [Function.comp]
    rw [if_neg (by simpa using hpc)]
    rw [lookupKey_self hwf.1 hp]
    simp [cardDeltaControls_self (hwf.2 p hp)]
  · simp only [Function.comp]
    rw [if_pos (by simp)]
    simp only
    rw [hc]
    dsimp only
    rw [cardDeltaControls_update hndc hn hv]
    simp

/-- Claim C3 (delta correctness): (a) for two snapshots that differ only
in the volume array of one control X := (c, n) — the current snapshot is
the previous one with that single volume replaced by a different value —
`computeDelta` reports a change whose delta contains exactly the entry
for X's card and control and nothing else; (b) the delta of a snapshot
against itself is empty (no change reported); (c) every card/control
entry of any delta is present in the current snapshot with an equal
value (delta ⊆ full snapshot). -/
theorem c3_delta_correctness :
    (∀ (S : StateSnapshot) (c : Nat) (n : String) (v : List Int)
      (card : CardState) (ctrl : ControlState),
      wfSnapshot S →
      lookupKey c S.Cards = some card →
      lookupKey n card.Controls = some ctrl →
      v ≠ ctrl.Volume →
      computeDelta (setControlVolume S c n v) (some S) =
        (true, some (StateSnapshot.mk
          [(c, CardState.mk [(n, ControlState.mk v ctrl.Mute)])]))) ∧
    (∀ S : StateSnapshot, wfSnapshot S → computeDelta S (some S) = (false, none)) ∧
    (∀ (current : StateSnapshot) (lastS : Option StateSnapshot) (d : StateSnapshot),
      (computeDelta current lastS).2 = some d →
      ∀ p ∈ d.Cards, ∃ cardC, (p.1, cardC) ∈ current.Cards ∧
        ∀ q ∈ p.2.Controls, q ∈ cardC.Controls) := by
  refine ⟨?_, ?_, ?_⟩
  · intro S c n v card ctrl hwf hc hn hvne
    rw [computeDelta]
    rw [deltaCards_update hwf hc hn (volumesDiffer_of_ne hvne)]
    simp
  · intro S hwf
    exact computeDelta_self hwf
  · intro current lastS d h p hp
    cases lastS with
    | none =>
      rw [computeDelta] at h
      simp only at h
      have hd := Option.some.inj h
      rw [← hd] at hp
      exact ⟨p.2, hp, fun q hq => hq⟩
    | some l =>
      rw [computeDelta] at h
      by_cases hd : (deltaCards current.Cards l.Cards).isEmpty
      · rw [if_pos hd] at h
        cases h
      · rw [if_neg hd] at h
        (try dsimp only at h)
        have hdd := Option.some.inj h
        rw [← hdd] at hp
        (try dsimp only at hp)
        rw [deltaCards] at hp
        obtain ⟨a, ha, hfa⟩ := List.mem_filterMap.mp hp
        cases hla : lookupKey a.1 l.Cards with
        | none =>
          rw [hla] at hfa
          (try dsimp only at hfa)
          have hap := Option.some.inj hfa
          rw [← hap]
          exact ⟨a.2, ha, fun q hq => hq⟩
        | some lc =>
          rw [hla] at hfa
          (try dsimp only at hfa)
          by_cases hcd : (cardDeltaControls a.2.Controls lc.Controls).isEmpty
          · rw [if_pos hcd] at hfa
            cases hfa
          · rw [if_neg hcd] at hfa
            have hap := Option.some.inj hfa
            refine ⟨a.2, ?_, ?_⟩
            · rw [← hap]
              exact ha
            · intro q hq
              rw [← hap] at hq
              (try dsimp only at hq)
              rw [cardDeltaControls] at hq
              exact (List.mem_filter.mp hq).1

/-- Witness for C3 at a concrete one-card, one-control snapshot. -/
theorem c3_delta_correctness_witness :
    computeDelta
        (setControlVolume
          (StateSnapshot.mk [(0, CardState.mk [("Master", ControlState.mk [30] false)])])
          0 "Master" [40])
        (some (StateSnapshot.mk [(0, CardState.mk [("Master", ControlState.mk [30] false)])])) =
      (true, some (StateSnapshot.mk
        [(0, CardState.mk [("Master", ControlState.mk [40] false)])])) ∧
    computeDelta
        (StateSnapshot.mk [(0, CardState.mk [("Master", ControlState.mk [30] false)])])
        (some (StateSnapshot.mk [(0, CardState.mk [("Master", ControlState.mk [30] false)])])) =
      (false, none) :=
  ⟨c3_delta_correctness.1
      (StateSnapshot.mk [(0, CardState.mk [("Master", ControlState.mk [30] false)])])
      0 "Master" [40] (CardState.mk [("Master", ControlState.mk [30] false)])
      (ControlState.mk [30] false) (by decide) rfl rfl (by decide),
   c3_delta_correctness.2.1
      (StateSnapshot.mk [(0, CardState.mk [("Master", ControlState.mk [30] false)])])
      (by decide)⟩

end AlsaWeb
